import Mathlib

/-!
Verification of the `lif_box` neuron model from `norse/torch/functional/lif_box.py`.

Tensors are modelled as functions from an arbitrary index type `ι` to the
rationals; all torch operations used by the code are elementwise, so each
tensor operation is embedded pointwise.  Scalars broadcast as constant
functions.  Exact rational arithmetic stands in for floating point.
-/

namespace LifBox

/-- A torch tensor, shallowly embedded as an assignment of a rational value
to every element of an index type `ι`.  All operations in `lif_box.py` are
elementwise, so this captures the forward semantics exactly. -/
def Tensor (ι : Type) : Type := ι → ℚ

/-- Modelled from the spec: the collaborator `threshold(x, method, alpha)`
(imported by `lif_box.py` from `norse.torch.functional.threshold`, whose
source is not part of this excerpt) "returns 1 where `x ≥ 0` else 0 in the
forward direction; backward gradient determined by `method`/`alpha`".
Only the forward value is modelled; `method` and `alpha` do not affect it. -/
def threshold (x : Tensor ι) (method : String) (alpha : ℚ) : Tensor ι :=
  fun i => if 0 ≤ x i then 1 else 0

/-- Embedding of the `LIFBoxParameters` NamedTuple from `lif_box.py`:
inverse membrane time constant, leak potential, threshold potential,
reset potential, surrogate-gradient method name and steepness. -/
structure LIFBoxParameters (ι : Type) where
  tau_mem_inv : Tensor ι
  v_leak : Tensor ι
  v_th : Tensor ι
  v_reset : Tensor ι
  method : String
  alpha : ℚ

/-- The default field values of `LIFBoxParameters`:
`tau_mem_inv = 1.0/1e-2 = 100`, `v_leak = 0`, `v_th = 1`, `v_reset = 0`,
`method = "super"`, `alpha = 100`. -/
def defaultParameters (ι : Type) : LIFBoxParameters ι :=
  ⟨fun _ => 100, fun _ => 0, fun _ => 1, fun _ => 0, "super", 100⟩

/-- Embedding of the `LIFBoxState` NamedTuple (recurrent variant):
recurrent spikes `z` and membrane potential `v`. -/
structure LIFBoxState (ι : Type) where
  z : Tensor ι
  v : Tensor ι

/-- Embedding of the `LIFBoxFeedForwardState` NamedTuple: the membrane
potential `v`. -/
structure LIFBoxFeedForwardState (ι : Type) where
  v : Tensor ι

/-- Embedding of `lif_box_feed_forward_step` from `lif_box.py`:

    dv = dt * p.tau_mem_inv * (input_tensor + p.v_leak - state.v)
    v_decayed = state.v + dv
    z_new = threshold(v_decayed - p.v_th, p.method, p.alpha)
    v_new = (1 - z_new) * v_decayed + z_new * p.v_reset
    return z_new, LIFBoxFeedForwardState(v=v_new)

with every tensor operation taken pointwise. -/
def lif_box_feed_forward_step (input_tensor : Tensor ι)
    (state : LIFBoxFeedForwardState ι) (p : LIFBoxParameters ι) (dt : ℚ) :
    Tensor ι × LIFBoxFeedForwardState ι :=
  let dv : Tensor ι :=
    fun i => dt * p.tau_mem_inv i * (input_tensor i + p.v_leak i - state.v i)
  let v_decayed : Tensor ι := fun i => state.v i + dv i
  let z_new : Tensor ι := threshold (fun i => v_decayed i - p.v_th i) p.method p.alpha
  let v_new : Tensor ι := fun i => (1 - z_new i) * v_decayed i + z_new i * p.v_reset i
  (z_new, ⟨v_new⟩)

/-- Repeated application of `lif_box_feed_forward_step` with a fixed input,
threading the state through `n` discrete time steps. -/
def iterateSteps (input_tensor : Tensor ι) (p : LIFBoxParameters ι) (dt : ℚ)
    (s : LIFBoxFeedForwardState ι) : Nat → LIFBoxFeedForwardState ι
  | 0 => s
  | n + 1 =>
    (lif_box_feed_forward_step input_tensor (iterateSteps input_tensor p dt s n) p dt).2

/-- Claim C1: `lif_box_feed_forward_step` returns exactly the pair
`(z_new, state with v_new)` where `dv = dt * tau_mem_inv * (input + v_leak - v)`,
`v_decayed = v + dv`, `z_new = threshold(v_decayed - v_th, method, alpha)` and
`v_new = (1 - z_new) * v_decayed + z_new * v_reset`. -/
theorem lif_box_feed_forward_step_spec (ι : Type) (input_tensor : Tensor ι)
    (state : LIFBoxFeedForwardState ι) (p : LIFBoxParameters ι) (dt : ℚ) :
    lif_box_feed_forward_step input_tensor state p dt =
      (let dv : Tensor ι :=
        fun i => dt * p.tau_mem_inv i * (input_tensor i + p.v_leak i - state.v i)
      let v_decayed : Tensor ι := fun i => state.v i + dv i
      let z_new : Tensor ι :=
        threshold (fun i => v_decayed i - p.v_th i) p.method p.alpha
      (z_new, ⟨fun i => (1 - z_new i) * v_decayed i + z_new i * p.v_reset i⟩)) :=
  rfl

/-- Claim C2: wherever the decayed voltage is strictly below the threshold
potential, the spike output is 0 and the returned voltage equals the decayed
voltage. -/
theorem lif_box_subthreshold (ι : Type) (input_tensor : Tensor ι)
    (state : LIFBoxFeedForwardState ι) (p : LIFBoxParameters ι) (dt : ℚ) (i : ι)
    (h : state.v i + dt * p.tau_mem_inv i * (input_tensor i + p.v_leak i - state.v i)
        < p.v_th i) :
    (lif_box_feed_forward_step input_tensor state p dt).1 i = 0 ∧
      (lif_box_feed_forward_step input_tensor state p dt).2.v i =
        state.v i + dt * p.tau_mem_inv i * (input_tensor i + p.v_leak i - state.v i) := by
  have hneg : ¬ (0 ≤ state.v i
      + dt * p.tau_mem_inv i * (input_tensor i + p.v_leak i - state.v i) - p.v_th i) := by
    linarith
  unfold lif_box_feed_forward_step threshold
  simp only [if_neg hneg]
  constructor
  · trivial
  · ring

/-- Witness for C2: with zero input, zero voltage and the default parameters
the decayed voltage `0.2` is below the threshold `1`, so no spike fires and
the voltage becomes the decayed voltage. -/
theorem lif_box_subthreshold_witness :
    (lif_box_feed_forward_step (fun _ : Unit => 2) ⟨fun _ => 0⟩
        (defaultParameters Unit) (1 / 1000)).1 () = 0 ∧
      (lif_box_feed_forward_step (fun _ : Unit => 2) ⟨fun _ => 0⟩
        (defaultParameters Unit) (1 / 1000)).2.v () =
        (0 : ℚ) + (1 / 1000) * 100 * (2 + 0 - 0) :=
  lif_box_subthreshold Unit (fun _ => 2) ⟨fun _ => 0⟩ (defaultParameters Unit)
    (1 / 1000) () (by norm_num [defaultParameters])

/-- Claim C3: wherever the decayed voltage reaches or exceeds the threshold
potential, the spike output is 1 and the returned voltage equals the reset
potential. -/
theorem lif_box_suprathreshold (ι : Type) (input_tensor : Tensor ι)
    (state : LIFBoxFeedForwardState ι) (p : LIFBoxParameters ι) (dt : ℚ) (i : ι)
    (h : p.v_th i ≤ state.v i
        + dt * p.tau_mem_inv i * (input_tensor i + p.v_leak i - state.v i)) :
    (lif_box_feed_forward_step input_tensor state p dt).1 i = 1 ∧
      (lif_box_feed_forward_step input_tensor state p dt).2.v i = p.v_reset i := by
  have hpos : 0 ≤ state.v i
      + dt * p.tau_mem_inv i * (input_tensor i + p.v_leak i - state.v i) - p.v_th i := by
    linarith
  unfold lif_box_feed_forward_step threshold
  simp only [if_pos hpos]
  constructor
  · trivial
  · ring

/-- Witness for C3: with input `20`, zero voltage and the default parameters
the decayed voltage `2` reaches the threshold `1`, so a spike fires and the
voltage resets to `0`. -/
theorem lif_box_suprathreshold_witness :
    (lif_box_feed_forward_step (fun _ : Unit => 20) ⟨fun _ => 0⟩
        (defaultParameters Unit) (1 / 1000)).1 () = 1 ∧
      (lif_box_feed_forward_step (fun _ : Unit => 20) ⟨fun _ => 0⟩
        (defaultParameters Unit) (1 / 1000)).2.v () = (defaultParameters Unit).v_reset () :=
  lif_box_suprathreshold Unit (fun _ => 20) ⟨fun _ => 0⟩ (defaultParameters Unit)
    (1 / 1000) () (by norm_num [defaultParameters])

/-- Claim C4: every element of the returned spike tensor is 0 or 1, and
every element of the returned voltage is either the decayed voltage or the
reset potential — hence finite whenever input, state and parameters are
(arithmetic in the model is exact, so no overflow or NaN can arise). -/
theorem lif_box_output_invariant (ι : Type) (input_tensor : Tensor ι)
    (state : LIFBoxFeedForwardState ι) (p : LIFBoxParameters ι) (dt : ℚ) (i : ι) :
    ((lif_box_feed_forward_step input_tensor state p dt).1 i = 0 ∨
      (lif_box_feed_forward_step input_tensor state p dt).1 i = 1) ∧
    ((lif_box_feed_forward_step input_tensor state p dt).2.v i =
        state.v i + dt * p.tau_mem_inv i * (input_tensor i + p.v_leak i - state.v i) ∨
      (lif_box_feed_forward_step input_tensor state p dt).2.v i = p.v_reset i) := by
  unfold lif_box_feed_forward_step threshold
  by_cases h : 0 ≤ state.v i
      + dt * p.tau_mem_inv i * (input_tensor i + p.v_leak i - state.v i) - p.v_th i
  · simp only [if_pos h]
    exact ⟨Or.inr trivial, Or.inr (by ring)⟩
  · simp only [if_neg h]
    exact ⟨Or.inl trivial, Or.inl (by ring)⟩

/-- Counterexample to claim C5 as stated: with `tau_mem_inv = 0`, voltage 1
and the default threshold `v_th = 1` and reset `v_reset = 0`, the returned
voltage is 0, not the unchanged 1 — the reset branch still fires. -/
theorem lif_box_tau_zero_counterexample :
    ¬ ((lif_box_feed_forward_step (fun _ : Unit => 0) ⟨fun _ => 1⟩
        ⟨fun _ => 0, fun _ => 0, fun _ => 1, fun _ => 0, "super", 100⟩ 1).2.v () = 1) := by
  unfold lif_box_feed_forward_step threshold
  norm_num

/-- Claim C5 (amended): with `tau_mem_inv = 0` the voltage increment is 0,
and the returned voltage is unchanged at every element where the (then
undecayed) voltage is strictly below the threshold; where it reaches the
threshold, the spike-and-reset branch still applies. -/
theorem lif_box_tau_zero (ι : Type) (input_tensor : Tensor ι)
    (state : LIFBoxFeedForwardState ι) (p : LIFBoxParameters ι) (dt : ℚ) (i : ι)
    (h0 : p.tau_mem_inv i = 0) (h1 : state.v i < p.v_th i) :
    (lif_box_feed_forward_step input_tensor state p dt).2.v i = state.v i := by
  have hneg : ¬ (0 ≤ state.v i
      + dt * p.tau_mem_inv i * (input_tensor i + p.v_leak i - state.v i) - p.v_th i) := by
    rw [h0]; push_neg; linarith
  unfold lif_box_feed_forward_step threshold
  simp only [if_neg hneg]
  rw [h0]; ring

/-- Witness for the amended C5: `tau_mem_inv = 0`, voltage `1/2` below the
threshold `1`: the returned voltage is still `1/2` whatever the input. -/
theorem lif_box_tau_zero_witness :
    (lif_box_feed_forward_step (fun _ : Unit => 7) ⟨fun _ => 1 / 2⟩
        ⟨fun _ => 0, fun _ => 0, fun _ => 1, fun _ => 0, "super", 100⟩ 1).2.v () = 1 / 2 :=
  lif_box_tau_zero Unit (fun _ => 7) ⟨fun _ => 1 / 2⟩
    ⟨fun _ => 0, fun _ => 0, fun _ => 1, fun _ => 0, "super", 100⟩ 1 ()
    rfl (by norm_num)

/-- Claim C6: with zero input, zero leak and zero initial voltage (other
parameters at their defaults `v_th = 1`, `v_reset = 0`), the voltage after
any number of steps — in particular after one — is exactly 0, for every
`dt` and every `tau_mem_inv` (resting equilibrium). -/
theorem lif_box_resting_equilibrium (ι : Type) (dt tau : ℚ) (method : String)
    (alpha : ℚ) (n : Nat) (i : ι) :
    (iterateSteps (fun _ => 0)
        ⟨fun _ => tau, fun _ => 0, fun _ => 1, fun _ => 0, method, alpha⟩ dt
        ⟨fun _ => 0⟩ n).v i = 0 := by
  induction n with
  | zero => rfl
  | succ n ih =>
    unfold iterateSteps lif_box_feed_forward_step threshold
    simp only [ih]
    norm_num

/-- Claim C7: with the default parameters, `dt = 0.001`, voltage 0 and input
`2.0`, the decayed voltage is `0.2 < 1`, so the step returns no spike and
the new voltage `0.2`. -/
theorem lif_box_default_example :
    (lif_box_feed_forward_step (fun _ : Unit => 2) ⟨fun _ => 0⟩
        (defaultParameters Unit) (1 / 1000)).1 () = 0 ∧
      (lif_box_feed_forward_step (fun _ : Unit => 2) ⟨fun _ => 0⟩
        (defaultParameters Unit) (1 / 1000)).2.v () = 1 / 5 := by
  unfold lif_box_feed_forward_step threshold defaultParameters
  norm_num

/-- Claim C8: `lif_box_feed_forward_step` is deterministic — two calls with
equal input tensor, equal state, equal parameters and equal `dt` return
equal spike tensors and equal new states. -/
theorem lif_box_deterministic (ι : Type) (input1 input2 : Tensor ι)
    (state1 state2 : LIFBoxFeedForwardState ι) (p1 p2 : LIFBoxParameters ι)
    (dt1 dt2 : ℚ) (hinput : input1 = input2) (hstate : state1 = state2)
    (hp : p1 = p2) (hdt : dt1 = dt2) :
    lif_box_feed_forward_step input1 state1 p1 dt1 =
      lif_box_feed_forward_step input2 state2 p2 dt2 := by
  rw [hinput, hstate, hp, hdt]

/-- Witness for C8: determinism at a concrete call. -/
theorem lif_box_deterministic_witness :
    lif_box_feed_forward_step (fun _ : Unit => 2) ⟨fun _ => 0⟩
        (defaultParameters Unit) (1 / 1000) =
      lif_box_feed_forward_step (fun _ : Unit => 2) ⟨fun _ => 0⟩
        (defaultParameters Unit) (1 / 1000) :=
  lif_box_deterministic Unit (fun _ => 2) (fun _ => 2) ⟨fun _ => 0⟩ ⟨fun _ => 0⟩
    (defaultParameters Unit) (defaultParameters Unit) (1 / 1000) (1 / 1000)
    rfl rfl rfl rfl

/-- Claim C10: even with `dt = 0` the spike-and-reset branch applies:
wherever the state voltage reaches the threshold, the step returns a spike
and the reset potential, so a zero-length step can change the state. -/
theorem lif_box_dt_zero_still_resets (ι : Type) (input_tensor : Tensor ι)
    (state : LIFBoxFeedForwardState ι) (p : LIFBoxParameters ι) (i : ι)
    (h : p.v_th i ≤ state.v i) :
    (lif_box_feed_forward_step input_tensor state p 0).1 i = 1 ∧
      (lif_box_feed_forward_step input_tensor state p 0).2.v i = p.v_reset i := by
  have hpos : 0 ≤ state.v i
      + 0 * p.tau_mem_inv i * (input_tensor i + p.v_leak i - state.v i) - p.v_th i := by
    linarith [zero_mul (p.tau_mem_inv i)]
  unfold lif_box_feed_forward_step threshold
  simp only [if_pos hpos]
  constructor
  · trivial
  · ring

/-- Witness for C10: `dt = 0`, voltage 1 at the default threshold 1: the
step spikes and resets the voltage to 0. -/
theorem lif_box_dt_zero_still_resets_witness :
    (lif_box_feed_forward_step (fun _ : Unit => 5) ⟨fun _ => 1⟩
        (defaultParameters Unit) 0).1 () = 1 ∧
      (lif_box_feed_forward_step (fun _ : Unit => 5) ⟨fun _ => 1⟩
        (defaultParameters Unit) 0).2.v () = (defaultParameters Unit).v_reset () :=
  lif_box_dt_zero_still_resets Unit (fun _ => 5) ⟨fun _ => 1⟩
    (defaultParameters Unit) () (by decide)

end LifBox
